import Mathlib

/-!
Verification development for the khor daemon (kernel-activity sonifier).

Shallow embedding conventions:
* C/C++ `double` and `float` values are embedded as exact rationals (`ℚ`);
  floating-point rounding is not modelled.  All arithmetic expressions are
  translated term-by-term from the source.
* `uint64_t` / `uint32_t` values are embedded as `ℕ` with explicit `% 2^64`
  (resp. `% 2^32`) where C overflow/wraparound semantics matter.
* The transcendental `std::log1p` used by the signal conditioner is not
  rational-computable; the embedding is parametric in a function
  `log1p : ℚ → ℚ`.  Every theorem about the conditioner holds for an
  arbitrary such function (the bounds come from the explicit clamping in
  the source, not from properties of the logarithm).
* IEEE-754 binary32 bit conversion in the OSC encoder is abstracted:
  a float value travels as its 32-bit pattern (`ℕ` below `2^32`), and the
  float operations `std::clamp(v,0,1)` / `std::max(0,d)` that the source
  applies before serialisation are abstracted as functions on bit patterns.
-/

/- Batteries marks the core `Rat` arithmetic `@[irreducible]`, which blocks
`decide`-based evaluation of the embedded (exact rational) float
arithmetic on concrete inputs. Restore the default reducibility so that
concrete runs of the embedded code reduce. -/
set_option allowUnsafeReducibility true

attribute [semireducible] Rat.add Rat.mul Rat.sub Rat.inv Rat.ofScientific

set_option maxRecDepth 1000000

namespace Khor

/-- `clamp01` from `src/daemon/src/engine/signals.cpp` (also the semantics of
`std::clamp(v, 0.0, 1.0)` used in `music.cpp`): clamp a rational into [0,1]. -/
def clamp01 (v : ℚ) : ℚ :=
  if v < 0 then 0 else if v > 1 then 1 else v

/-- `std::clamp` on integers: clamp `v` into `[lo, hi]`. -/
def clampZ (v lo hi : ℤ) : ℤ :=
  if v < lo then lo else if hi < v then hi else v

/-- `std::clamp` on rationals with explicit bounds. -/
def clampQ (v lo hi : ℚ) : ℚ :=
  if v < lo then lo else if hi < v then hi else v

/-- Unsigned 64-bit subtraction `a - b` with C wraparound semantics. -/
def sub64 (a b : ℕ) : ℕ :=
  (((a : ℤ) - (b : ℤ)) % (2 ^ 64)).toNat

theorem clamp01_nonneg (v : ℚ) : 0 ≤ clamp01 v := by
  unfold clamp01; split <;> [norm_num; skip]; split <;> [norm_num; linarith]

theorem clamp01_le_one (v : ℚ) : clamp01 v ≤ 1 := by
  unfold clamp01; split <;> [norm_num; skip]; split <;> [norm_num; linarith]

theorem sub64_nonneg (a b : ℕ) : 0 ≤ (sub64 a b : ℚ) := by
  positivity

theorem sub64_eq_sub (a b : ℕ) (hle : b ≤ a) (hlt : a - b < 2 ^ 64) :
    sub64 a b = a - b := by
  unfold sub64
  have h1 : (a : ℤ) - (b : ℤ) = ((a - b : ℕ) : ℤ) := by
    omega
  rw [h1, Int.emod_eq_of_lt (by positivity) (by exact_mod_cast hlt)]
  exact Int.toNat_natCast _

/-! ## Signal conditioner (`src/daemon/src/engine/signals.{h,cpp}`) -/

/-- `Signals::Totals`: six monotonic u64 counters. -/
structure Totals where
  exec_total : ℕ := 0
  net_rx_bytes_total : ℕ := 0
  net_tx_bytes_total : ℕ := 0
  sched_switch_total : ℕ := 0
  blk_read_bytes_total : ℕ := 0
  blk_write_bytes_total : ℕ := 0
deriving Repr, DecidableEq

/-- `SignalRates`: six doubles (rates per second / kB per second). -/
structure SignalRates where
  exec_s : ℚ := 0
  rx_kbs : ℚ := 0
  tx_kbs : ℚ := 0
  csw_s : ℚ := 0
  blk_r_kbs : ℚ := 0
  blk_w_kbs : ℚ := 0
deriving Repr, DecidableEq

/-- `Signal01`: five doubles in [0,1] after normalisation + smoothing. -/
structure Signal01 where
  exec : ℚ := 0
  rx : ℚ := 0
  tx : ℚ := 0
  csw : ℚ := 0
  io : ℚ := 0
deriving Repr, DecidableEq

/-- The private state of class `Signals`. -/
structure SignalsState where
  cur : Totals := {}
  prev : Totals := {}
  has_prev : Bool := false
  rates : SignalRates := {}
  v01 : Signal01 := {}
deriving Repr, DecidableEq

/-- `norm_log` from `signals.cpp`, parametric in the `log1p` function:
`clamp01(log1p(max 0 v) / log1p(max 1e-9 v_max))`. -/
def norm_log (log1p : ℚ → ℚ) (v v_max : ℚ) : ℚ :=
  clamp01 (log1p (max 0 v) / log1p (max (1 / 1000000000) v_max))

/-- `ema` from `signals.cpp`: exponential smoothing with the smoothing
factor clamped to [0,1] and scaled by 0.98. -/
def ema (prev x alpha : ℚ) : ℚ :=
  let a := clamp01 alpha * (98 / 100)
  a * prev + (1 - a) * x

/-- `Signals::update` from `signals.cpp`, translated statement by statement.
`cur_ = cur` happens first; on the first call the totals are stored and
zero rates/signals are produced; otherwise `dt ≤ 0` is replaced by `0.1`
and rates and smoothed signals are computed. -/
def Signals.update (log1p : ℚ → ℚ) (st : SignalsState) (cur : Totals)
    (dt_s smoothing01 : ℚ) : SignalsState :=
  if st.has_prev = false then
    { cur := cur, prev := cur, has_prev := true, rates := {}, v01 := {} }
  else
    let dt : ℚ := if dt_s ≤ 0 then 1 / 10 else dt_s
    let rates : SignalRates :=
      { exec_s := (sub64 cur.exec_total st.prev.exec_total : ℚ) / dt
        rx_kbs := (sub64 cur.net_rx_bytes_total st.prev.net_rx_bytes_total : ℚ) / dt / 1024
        tx_kbs := (sub64 cur.net_tx_bytes_total st.prev.net_tx_bytes_total : ℚ) / dt / 1024
        csw_s := (sub64 cur.sched_switch_total st.prev.sched_switch_total : ℚ) / dt
        blk_r_kbs := (sub64 cur.blk_read_bytes_total st.prev.blk_read_bytes_total : ℚ) / dt / 1024
        blk_w_kbs := (sub64 cur.blk_write_bytes_total st.prev.blk_write_bytes_total : ℚ) / dt / 1024 }
    let exec01 := norm_log log1p rates.exec_s 250
    let rx01 := norm_log log1p rates.rx_kbs 50000
    let tx01 := norm_log log1p rates.tx_kbs 50000
    let csw01 := norm_log log1p rates.csw_s 120000
    let io01 := norm_log log1p (rates.blk_r_kbs + rates.blk_w_kbs) 80000
    let v01 : Signal01 :=
      { exec := ema st.v01.exec exec01 smoothing01
        rx := ema st.v01.rx rx01 smoothing01
        tx := ema st.v01.tx tx01 smoothing01
        csw := ema st.v01.csw csw01 smoothing01
        io := ema st.v01.io io01 smoothing01 }
    { cur := cur, prev := cur, has_prev := true, rates := rates, v01 := v01 }

/-- All rate components are non-negative. -/
def ratesNonneg (r : SignalRates) : Prop :=
  0 ≤ r.exec_s ∧ 0 ≤ r.rx_kbs ∧ 0 ≤ r.tx_kbs ∧ 0 ≤ r.csw_s ∧
    0 ≤ r.blk_r_kbs ∧ 0 ≤ r.blk_w_kbs

/-- All Signal01 components are in [0,1]. -/
def sig01Bounded (v : Signal01) : Prop :=
  (0 ≤ v.exec ∧ v.exec ≤ 1) ∧ (0 ≤ v.rx ∧ v.rx ≤ 1) ∧ (0 ≤ v.tx ∧ v.tx ≤ 1) ∧
    (0 ≤ v.csw ∧ v.csw ≤ 1) ∧ (0 ≤ v.io ∧ v.io ≤ 1)

/-- Componentwise order on totals snapshots. -/
def totalsLE (a b : Totals) : Prop :=
  a.exec_total ≤ b.exec_total ∧ a.net_rx_bytes_total ≤ b.net_rx_bytes_total ∧
    a.net_tx_bytes_total ≤ b.net_tx_bytes_total ∧
    a.sched_switch_total ≤ b.sched_switch_total ∧
    a.blk_read_bytes_total ≤ b.blk_read_bytes_total ∧
    a.blk_write_bytes_total ≤ b.blk_write_bytes_total

/-- Run `Signals::update` over a list of `(totals, dt)` samples. -/
def runUpdates (log1p : ℚ → ℚ) (smoothing01 : ℚ) (init : SignalsState)
    (steps : List (Totals × ℚ)) : SignalsState :=
  steps.foldl (fun st p => Signals.update log1p st p.1 p.2 smoothing01) init

theorem ema_mem_unit (prev x alpha : ℚ) (hp0 : 0 ≤ prev) (hp1 : prev ≤ 1)
    (hx0 : 0 ≤ x) (hx1 : x ≤ 1) : 0 ≤ ema prev x alpha ∧ ema prev x alpha ≤ 1 := by
  unfold ema
  have h0 := clamp01_nonneg alpha
  have h1 := clamp01_le_one alpha
  constructor
  · nlinarith
  · nlinarith

/-- Invariant: rates non-negative and signals in [0,1]. -/
def signalsInv (st : SignalsState) : Prop :=
  ratesNonneg st.rates ∧ sig01Bounded st.v01

theorem signalsInv_init : signalsInv {} := by
  constructor <;> simp [ratesNonneg, sig01Bounded, SignalRates.mk, Signal01.mk]

theorem signalsInv_update (log1p : ℚ → ℚ) (st : SignalsState) (cur : Totals)
    (dt_s sm : ℚ) (h : signalsInv st) :
    signalsInv (Signals.update log1p st cur dt_s sm) := by
  unfold Signals.update
  split
  · constructor <;>
      simp [ratesNonneg, sig01Bounded, SignalRates.mk, Signal01.mk]
  · obtain ⟨hr, hv⟩ := h
    obtain ⟨⟨he0, he1⟩, ⟨hx0, hx1⟩, ⟨ht0, ht1⟩, ⟨hc0, hc1⟩, ⟨hi0, hi1⟩⟩ := hv
    have hdt : (0 : ℚ) < (if dt_s ≤ 0 then 1 / 10 else dt_s) := by
      split <;> [norm_num; linarith [lt_of_not_le (by assumption)]]
    set dt : ℚ := if dt_s ≤ 0 then 1 / 10 else dt_s with hdtdef
    constructor
    · refine ⟨?_, ?_, ?_, ?_, ?_, ?_⟩ <;>
        · simp only
          positivity
    · refine ⟨?_, ?_, ?_, ?_, ?_⟩ <;>
        · simp only
          exact ema_mem_unit _ _ _ (by assumption) (by assumption)
            (clamp01_nonneg _) (clamp01_le_one _)

theorem runUpdates_inv (log1p : ℚ → ℚ) (sm : ℚ) (steps : List (Totals × ℚ))
    (init : SignalsState) (h : signalsInv init) :
    signalsInv (runUpdates log1p sm init steps) := by
  induction steps generalizing init with
  | nil => exact h
  | cons p rest ih =>
    exact ih _ (signalsInv_update log1p init p.1 p.2 sm h)

/-- Claim C3: for every componentwise non-decreasing sequence of Totals
snapshots and positive time deltas, after each `Signals::update` every
computed rate component is non-negative and every component of the
resulting `Signal01` lies in [0,1], for any smoothing argument (and any
`log1p` function). -/
theorem signals_rates_nonneg_and_sig01_bounded (log1p : ℚ → ℚ) (sm : ℚ)
    (steps : List (Totals × ℚ))
    (_hmono : List.Chain' (fun a b => totalsLE a.1 b.1) steps)
    (_hdt : ∀ p ∈ steps, 0 < p.2) (n : ℕ) :
    ratesNonneg (runUpdates log1p sm {} (steps.take n)).rates ∧
      sig01Bounded (runUpdates log1p sm {} (steps.take n)).v01 :=
  runUpdates_inv log1p sm (steps.take n) {} signalsInv_init

theorem signals_rates_nonneg_and_sig01_bounded_witness :
    List.Chain' (fun a b => totalsLE a.1 b.1)
      [(({ exec_total := 3 } : Totals), (1 : ℚ)), (({ exec_total := 7 } : Totals), (2 : ℚ))] ∧
    (∀ p ∈ [(({ exec_total := 3 } : Totals), (1 : ℚ)), (({ exec_total := 7 } : Totals), (2 : ℚ))],
      (0 : ℚ) < p.2) ∧
    (ratesNonneg (runUpdates id (1/2) {}
        ([(({ exec_total := 3 } : Totals), (1 : ℚ)),
          (({ exec_total := 7 } : Totals), (2 : ℚ))].take 2)).rates ∧
      sig01Bounded (runUpdates id (1/2) {}
        ([(({ exec_total := 3 } : Totals), (1 : ℚ)),
          (({ exec_total := 7 } : Totals), (2 : ℚ))].take 2)).v01) :=
  ⟨by simp [totalsLE], by decide,
    signals_rates_nonneg_and_sig01_bounded id (1/2) _
      (by simp [totalsLE]) (by decide) 2⟩

/-- Claim C4: the first `Signals::update` call stores the given totals as
previous, produces all-zero rates and all-zero signals; any later call
with `dt ≤ 0` behaves exactly as a call with `dt = 0.1` (never divides
by zero). -/
theorem signals_first_update_and_dt_guard (log1p : ℚ → ℚ) (st : SignalsState)
    (cur : Totals) (dt_s sm : ℚ) :
    (st.has_prev = false →
      Signals.update log1p st cur dt_s sm =
        { cur := cur, prev := cur, has_prev := true, rates := {}, v01 := {} }) ∧
    (st.has_prev = true → dt_s ≤ 0 →
      Signals.update log1p st cur dt_s sm = Signals.update log1p st cur (1/10) sm) := by
  constructor
  · intro h
    simp [Signals.update, h]
  · intro h hdt
    have h10 : ¬((1 : ℚ)/10 ≤ 0) := by norm_num
    simp [Signals.update, h, if_pos hdt, if_neg h10]

theorem signals_first_update_and_dt_guard_witness :
    (({} : SignalsState).has_prev = false ∧
      Signals.update id {} { exec_total := 5 } 2 (1/2) =
        { cur := { exec_total := 5 }, prev := { exec_total := 5 },
          has_prev := true, rates := {}, v01 := {} }) ∧
    (({ has_prev := true } : SignalsState).has_prev = true ∧ (0 : ℚ) ≤ 0 ∧
      Signals.update id { has_prev := true } { exec_total := 5 } 0 (1/2) =
        Signals.update id { has_prev := true } { exec_total := 5 } (1/10) (1/2)) :=
  ⟨⟨rfl, (signals_first_update_and_dt_guard id {} { exec_total := 5 } 2 (1/2)).1 rfl⟩,
    ⟨rfl, le_refl 0,
      (signals_first_update_and_dt_guard id { has_prev := true }
        { exec_total := 5 } 0 (1/2)).2 rfl (le_refl 0)⟩⟩

/-! ## Kernel probe program (`src/bpf/khor.bpf.c`, `src/bpf/khor.h`) -/

/-- `struct khor_sample_payload`: per-CPU accumulated counter deltas plus
`lost_events` (ring-buffer reserve failures). All fields are u64. -/
structure KhorSamplePayload where
  exec_count : ℕ := 0
  net_rx_bytes : ℕ := 0
  net_tx_bytes : ℕ := 0
  sched_switches : ℕ := 0
  blk_read_bytes : ℕ := 0
  blk_write_bytes : ℕ := 0
  blk_issue_count : ℕ := 0
  lost_events : ℕ := 0
deriving Repr, DecidableEq

/-- `struct khor_counters`: flush timestamp plus the accumulator. -/
structure KhorCounters where
  last_flush_ns : ℕ := 0
  acc : KhorSamplePayload := {}
deriving Repr, DecidableEq

/-- `struct khor_bpf_config` (the single-entry config map value). -/
structure KhorBpfConfig where
  enabled_mask : ℕ := 0
  sample_interval_ms : ℕ := 0
  tgid_allow : ℕ := 0
  tgid_deny : ℕ := 0
  cgroup_id : ℕ := 0
deriving Repr, DecidableEq

def KHOR_PROBE_EXEC : ℕ := 1
def KHOR_PROBE_NET : ℕ := 2
def KHOR_PROBE_SCHED : ℕ := 4
def KHOR_PROBE_BLOCK : ℕ := 8

/-- `cfg_enabled_mask`: missing config or zero mask means all classes. -/
def cfg_enabled_mask (cfg : Option KhorBpfConfig) : ℕ :=
  let all := KHOR_PROBE_EXEC ||| KHOR_PROBE_NET ||| KHOR_PROBE_SCHED ||| KHOR_PROBE_BLOCK
  match cfg with
  | none => all
  | some c => if c.enabled_mask = 0 then all else c.enabled_mask

/-- `cfg_interval_ns`: missing/zero interval defaults to 200 ms. -/
def cfg_interval_ns (cfg : Option KhorBpfConfig) : ℕ :=
  let ms := match cfg with
    | none => 0
    | some c => c.sample_interval_ms
  (if ms = 0 then 200 else ms) * 1000000

/-- `pass_filters`: tgid allow/deny and cgroup admission. The current tgid
and cgroup id are environment inputs. -/
def pass_filters (cfg : Option KhorBpfConfig) (tgid cgid : ℕ) : Bool :=
  match cfg with
  | none => true
  | some c =>
    if c.tgid_allow ≠ 0 ∧ tgid ≠ c.tgid_allow then false
    else if c.tgid_deny ≠ 0 ∧ tgid = c.tgid_deny then false
    else if c.cgroup_id ≠ 0 ∧ cgid ≠ c.cgroup_id then false
    else true

/-- `emit_sample`: reserve a ring-buffer slot and submit the accumulator as
the sample payload. Ring-buffer reservation success is an environment
input (`reserveOk`); on failure `lost_events` is incremented and nothing
is submitted. The event header (timestamp, pid/tgid, cpu, comm) consists
of environment data and is not modelled; the payload submitted is exactly
`c.acc`. -/
def emit_sample (reserveOk : Bool) (c : KhorCounters) :
    KhorCounters × Option KhorSamplePayload :=
  if reserveOk = false then
    ({ c with acc := { c.acc with lost_events := (c.acc.lost_events + 1) % 2 ^ 64 } }, none)
  else
    (c, some c.acc)

/-- Test whether any accumulator field is non-zero (the flush condition). -/
def accAnyNonzero (a : KhorSamplePayload) : Bool :=
  a.exec_count ≠ 0 ∨ a.net_rx_bytes ≠ 0 ∨ a.net_tx_bytes ≠ 0 ∨
    a.sched_switches ≠ 0 ∨ a.blk_read_bytes ≠ 0 ∨ a.blk_write_bytes ≠ 0 ∨
    a.blk_issue_count ≠ 0 ∨ a.lost_events ≠ 0

/-- `maybe_flush`: on the very first call merely record the timestamp; then,
once the interval has elapsed and any field is non-zero, emit a sample and
unconditionally reset every accumulator field (including `lost_events`)
and the flush timestamp. -/
def maybe_flush (reserveOk : Bool) (cfg : Option KhorBpfConfig)
    (c : KhorCounters) (now : ℕ) : KhorCounters × Option KhorSamplePayload :=
  if c.last_flush_ns = 0 then
    ({ c with last_flush_ns := now }, none)
  else if sub64 now c.last_flush_ns < cfg_interval_ns cfg then
    (c, none)
  else
    let r := if accAnyNonzero c.acc then emit_sample reserveOk c else (c, none)
    (({ last_flush_ns := now, acc := {} } : KhorCounters), r.2)

/-- `tp_execve`: the exec tracepoint handler — filters, accumulate
`exec_count`, then `maybe_flush`. -/
def tp_execve (cfg : Option KhorBpfConfig) (tgid cgid : ℕ) (reserveOk : Bool)
    (c : KhorCounters) (now : ℕ) : KhorCounters × Option KhorSamplePayload :=
  if pass_filters cfg tgid cgid = false then (c, none)
  else if cfg_enabled_mask cfg &&& KHOR_PROBE_EXEC = 0 then (c, none)
  else
    maybe_flush reserveOk cfg
      ({ c with acc := { c.acc with exec_count := (c.acc.exec_count + 1) % 2 ^ 64 } }) now

/-! ## Music engine (`src/daemon/src/engine/music.{h,cpp}`) -/

/-- `MusicConfig` (the smoothing field lives outside this struct). -/
structure MusicConfig where
  bpm : ℚ := 110
  key_midi : ℤ := 62
  scale : String := "pentatonic_minor"
  preset : String := "ambient"
  density : ℚ := 35 / 100
deriving Repr, DecidableEq

/-- `SynthParams` with the default member initialisers from `music.h`. -/
structure SynthParams where
  cutoff01 : ℚ := 65 / 100
  resonance01 : ℚ := 25 / 100
  delay_mix01 : ℚ := 10 / 100
  reverb_mix01 : ℚ := 15 / 100
deriving Repr, DecidableEq

/-- `NoteEvent` from `engine/note_event.h`. -/
structure NoteEvent where
  midi : ℤ := 60
  velocity : ℚ := 7 / 10
  dur_s : ℚ := 25 / 100
deriving Repr, DecidableEq

/-- `MusicFrame`: ordered note list plus a synth parameter snapshot. -/
structure MusicFrame where
  notes : List NoteEvent := []
  synth : SynthParams := {}
deriving Repr, DecidableEq

/-- The private `(bar_, step_)` cursor of `MusicEngine` (u64 / u32). -/
structure MusicEngineState where
  bar : ℕ := 0
  step : ℕ := 0
deriving Repr, DecidableEq

/-- `scale_from_string`: named scales with fallback to pentatonic minor. -/
def scale_from_string (s : String) : List ℤ :=
  if s = "pentatonic_minor" ∨ s = "penta_minor" ∨ s = "pentatonic" then [0, 3, 5, 7, 10]
  else if s = "natural_minor" ∨ s = "minor" then [0, 2, 3, 5, 7, 8, 10]
  else if s = "dorian" then [0, 2, 3, 5, 7, 9, 10]
  else [0, 3, 5, 7, 10]

/-- The state advance of `splitmix64` (`x += 0x9e3779b97f4a7c15`). -/
def sm_next (x : ℕ) : ℕ := (x + 0x9e3779b97f4a7c15) % 2 ^ 64

/-- The output mixing of `splitmix64`, applied to the advanced state. -/
def sm_mix (x : ℕ) : ℕ :=
  let z1 := ((x ^^^ (x >>> 30)) * 0xbf58476d1ce4e5b9) % 2 ^ 64
  let z2 := ((z1 ^^^ (z1 >>> 27)) * 0x94d049bb133111eb) % 2 ^ 64
  z2 ^^^ (z2 >>> 31)

/-- The value `frand01(&x)` returns when called with current RNG state `x`
(the call leaves the state at `sm_next x`): the top 53 bits of the mixed
advanced state, scaled into [0,1). -/
def frand01 (x : ℕ) : ℚ := ((sm_mix (sm_next x) >>> 11 : ℕ) : ℚ) / 9007199254740992

/-- C cast `double → int`/`long`: truncation toward zero. -/
def truncQ (q : ℚ) : ℤ := if 0 ≤ q then ⌊q⌋ else ⌈q⌉

/-- `std::llround`: rounding half away from zero. -/
def roundAway (q : ℚ) : ℤ := if 0 ≤ q then ⌊q + 1 / 2⌋ else ⌈q - 1 / 2⌉

/-- C cast of a signed 64-bit value to `uint64_t` (mod `2^64`). -/
def toU64 (z : ℤ) : ℕ := (z % 2 ^ 64).toNat

/-- `pick_note`: select a scale degree, add the octave offset, clamp to the
MIDI range. `degree %= count; if (degree < 0) degree += count` is exactly
`Int.emod` for a positive count. -/
def pick_note (key_midi : ℤ) (sc : List ℤ) (degree octave : ℤ) : ℤ :=
  if sc.length = 0 then clampZ key_midi 0 127
  else
    let d := degree % (sc.length : ℤ)
    clampZ (key_midi + sc.getD d.toNat 0 + octave * 12) 0 127

/-- `push_note`: clamp the MIDI number into [0,127], the velocity into
[0,1], and floor the duration at 0.02 s. -/
def push_note (midi : ℤ) (vel dur_s : ℚ) : NoteEvent :=
  { midi := clampZ midi 0 127, velocity := clamp01 vel, dur_s := max (2 / 100) dur_s }

/-- The deterministic seed mixed from `(bar, step)` and the fixed-point
quantised signals (`music.cpp` lines 93-100). -/
def tick_seed (bar step : ℕ) (s : Signal01) : ℕ :=
  let mixq := fun (seed : ℕ) (x : ℚ) (c : ℕ) =>
    seed ^^^ ((toU64 (roundAway (x * 1000000)) * c) % 2 ^ 64)
  let seed := 0x6a09e667f3bcc909
  let seed := seed ^^^ ((bar % 2 ^ 64) * 0x9e3779b97f4a7c15) % 2 ^ 64
  let seed := seed ^^^ ((step % 2 ^ 32) * 0xbf58476d1ce4e5b9) % 2 ^ 64
  let seed := mixq seed s.exec 0x94d049bb133111eb
  let seed := mixq seed s.rx 0x2545f4914f6cdd1d
  let seed := mixq seed s.tx 0x7f4a7c159e3779b9
  let seed := mixq seed s.csw 0x1ce4e5b9bf58476d
  let seed := mixq seed s.io 0x133111eb94d049bb
  seed

/-- Cursor advance at the end of a tick: `step_ = (step_ + 1) & 15`, with
`bar_++` (u64) on wrap. -/
def advanceCursor (st : MusicEngineState) : MusicEngineState :=
  let step2 := (st.step + 1) &&& 15
  { bar := if step2 = 0 then (st.bar + 1) % 2 ^ 64 else st.bar, step := step2 }

/-- The ambient preset branch of `MusicEngine::tick`. -/
def ambient_branch (s : Signal01) (key : ℤ) (sc : List ℤ) (dens activity : ℚ)
    (sp0 : SynthParams) (seed : ℕ) : List NoteEvent × SynthParams :=
  let sp := { sp0 with reverb_mix01 := clamp01 (38 / 100 + 35 / 100 * s.rx),
                       delay_mix01 := clamp01 (10 / 100 + 22 / 100 * s.tx) }
  let p_note := dens * (12 / 100 + 88 / 100 * activity) * (35 / 100)
  let s1 := sm_next seed
  let notes1 :=
    if frand01 seed < p_note then
      [push_note (pick_note key sc (truncQ (frand01 s1 * sc.length))
          (truncQ (frand01 (sm_next s1) * 3)))
        (clamp01 (12 / 100 + 70 / 100 * (65 / 100 * s.rx + 35 / 100 * s.tx)))
        (clampQ (20 / 100 + 70 / 100 * (40 / 100 + 60 / 100 * s.rx) * (30 / 100 + 70 / 100 * dens))
          (10 / 100) (110 / 100))]
    else []
  let sAfter1 := if frand01 seed < p_note then sm_next (sm_next s1) else s1
  let p_exec := dens * s.exec * (18 / 100)
  let notes2 :=
    if frand01 sAfter1 < p_exec then
      [push_note (pick_note key sc 0 1) (42 / 100) (35 / 100),
       push_note (pick_note key sc 2 1) (30 / 100) (35 / 100)]
    else []
  (notes1 ++ notes2, sp)

/-- The probability threshold of the percussive mid-hit branch as the code
computes it (`music.cpp` line 149). -/
def percussive_p_mid (dens rx tx : ℚ) : ℚ :=
  dens * (10 / 100 + 90 / 100 * (rx + tx) * (1 / 2)) * (35 / 100)

/-- The RNG state at which the mid-hit draw of the percussive branch is
taken: after the optional kick draw (only on every 4th step) and the
click draw (plus its degree draw when the click fired). -/
def percussive_mid_state (s : Signal01) (dens : ℚ) (step seed : ℕ) : ℕ :=
  let sK := if step % 4 = 0 then sm_next seed else seed
  let p_click := dens * (10 / 100 + 90 / 100 * s.csw) * (95 / 100)
  if frand01 sK < p_click then sm_next (sm_next sK) else sm_next sK

/-- The percussive preset branch of `MusicEngine::tick`. -/
def percussive_branch (s : Signal01) (key : ℤ) (sc : List ℤ) (dens : ℚ)
    (step : ℕ) (sp0 : SynthParams) (seed : ℕ) : List NoteEvent × SynthParams :=
  let sp := { sp0 with cutoff01 := clamp01 (62 / 100 + 30 / 100 * s.io),
                       reverb_mix01 := clamp01 (10 / 100 + 15 / 100 * s.rx),
                       delay_mix01 := clamp01 (6 / 100 + 10 / 100 * s.tx) }
  let kick :=
    if step % 4 = 0 then
      (if frand01 seed < dens * (5 / 100 + 95 / 100 * s.exec) * (65 / 100) then
        [push_note (clampZ (key - 24) 0 127) (clamp01 (35 / 100 + 55 / 100 * s.exec)) (8 / 100)]
      else [])
    else []
  let sK := if step % 4 = 0 then sm_next seed else seed
  let p_click := dens * (10 / 100 + 90 / 100 * s.csw) * (95 / 100)
  let click :=
    if frand01 sK < p_click then
      [push_note (pick_note key sc (truncQ (frand01 (sm_next sK) * sc.length))
          ((3 + (step &&& 1) : ℕ) : ℤ))
        (clamp01 (18 / 100 + 75 / 100 * s.csw)) (5 / 100)]
    else []
  let sC := percussive_mid_state s dens step seed
  let mid :=
    if frand01 sC < percussive_p_mid dens s.rx s.tx then
      [push_note (pick_note key sc (truncQ (frand01 (sm_next sC) * sc.length)) 2)
        (clamp01 (10 / 100 + 60 / 100 * (s.rx + s.tx) * (1 / 2))) (7 / 100)]
    else []
  (kick ++ click ++ mid, sp)

/-- The arp preset branch of `MusicEngine::tick`. -/
def arp_branch (s : Signal01) (key : ℤ) (sc : List ℤ) (dens : ℚ)
    (step : ℕ) (sp0 : SynthParams) (seed : ℕ) : List NoteEvent × SynthParams :=
  let sp := { sp0 with reverb_mix01 := clamp01 (18 / 100 + 20 / 100 * s.rx),
                       delay_mix01 := clamp01 (22 / 100 + 35 / 100 * s.tx) }
  let pdeg : ℤ := [0, 1, 2, 1].getD (step &&& 3) 0
  let gate := (s.rx + s.tx) * (1 / 2)
  let p_arp := dens * (20 / 100 + 80 / 100 * gate)
  let notesA :=
    if gate > 5 / 100 ∧ frand01 seed < p_arp then
      [push_note (pick_note key sc pdeg ((2 + ((step >>> 2) &&& 1) : ℕ) : ℤ))
        (clamp01 (12 / 100 + 75 / 100 * gate)) (12 / 100)]
    else []
  let sA := if gate > 5 / 100 then sm_next seed else seed
  let notesB :=
    if step = 0 ∧ frand01 sA < dens * (10 / 100 + 90 / 100 * s.exec) * (6 / 10) then
      [push_note (pick_note key sc 0 1) (45 / 100) (20 / 100),
       push_note (pick_note key sc 2 1) (30 / 100) (20 / 100)]
    else []
  (notesA ++ notesB, sp)

/-- The drone preset branch of `MusicEngine::tick` (also the fallback for
unknown preset names). -/
def drone_branch (s : Signal01) (key : ℤ) (sc : List ℤ) (dens : ℚ)
    (step : ℕ) (activity : ℚ) (sp0 : SynthParams) (seed : ℕ) :
    List NoteEvent × SynthParams :=
  let sp := { sp0 with reverb_mix01 := clamp01 (45 / 100 + 25 / 100 * s.rx),
                       delay_mix01 := clamp01 (5 / 100 + 10 / 100 * s.tx),
                       cutoff01 := clamp01 (18 / 100 + 78 / 100 * s.io),
                       resonance01 := clamp01 (30 / 100 + 55 / 100 * s.exec) }
  let n1 :=
    if step = 0 then
      [push_note (clampZ (key - 24) 0 127) (clamp01 (8 / 100 + 28 / 100 * s.io)) (23 / 10)]
    else []
  let n2 :=
    if step = 8 ∧ activity > 10 / 100 then
      [push_note (clampZ (key - 12) 0 127) (clamp01 (5 / 100 + 20 / 100 * activity)) (16 / 10)]
    else []
  let p_top := dens * (5 / 100 + 95 / 100 * (s.rx + s.tx) * (1 / 2)) * (25 / 100)
  let n3 :=
    if frand01 seed < p_top then
      [push_note (pick_note key sc (truncQ (frand01 (sm_next seed) * sc.length)) 3)
        (clamp01 (5 / 100 + 35 / 100 * (s.rx + s.tx) * (1 / 2))) (40 / 100)]
    else []
  (n1 ++ n2 ++ n3, sp)

/-- The baseline synth parameter snapshot computed at the top of every
tick (`music.cpp` lines 79-81). -/
def baseline_synth (s : Signal01) : SynthParams :=
  { cutoff01 := clamp01 (30 / 100 + 60 / 100 * s.io + 15 / 100 * (s.rx + s.tx) * (1 / 2)),
    resonance01 := clamp01 (18 / 100 + 55 / 100 * s.exec),
    delay_mix01 := 10 / 100, reverb_mix01 := 15 / 100 }

/-- The activity level: `std::max({exec, rx, tx, csw, io})`. -/
def activityOf (s : Signal01) : ℚ := max s.exec (max s.rx (max s.tx (max s.csw s.io)))

/-- `MusicEngine::tick`, translated from `music.cpp`. Returns the produced
frame and the advanced cursor state. -/
def MusicEngine.tick (st : MusicEngineState) (s : Signal01) (cfg : MusicConfig) :
    MusicFrame × MusicEngineState :=
  let dens := clamp01 cfg.density
  let key := clampZ cfg.key_midi 0 127
  let sc := scale_from_string cfg.scale
  let activity := activityOf s
  let sp0 := baseline_synth s
  if cfg.preset ≠ "drone" ∧ activity < 3 / 100 then
    ({ notes := [], synth := sp0 }, advanceCursor st)
  else
    let seed := tick_seed st.bar st.step s
    let r :=
      if cfg.preset = "ambient" then ambient_branch s key sc dens activity sp0 seed
      else if cfg.preset = "percussive" then percussive_branch s key sc dens st.step sp0 seed
      else if cfg.preset = "arp" then arp_branch s key sc dens st.step sp0 seed
      else drone_branch s key sc dens st.step activity sp0 seed
    ({ notes := r.1, synth := r.2 }, advanceCursor st)

/-- Iterated engine state after `n` ticks with fixed signals and config. -/
def tickIterState (s : Signal01) (cfg : MusicConfig) (st : MusicEngineState) :
    ℕ → MusicEngineState
  | 0 => st
  | n + 1 => (MusicEngine.tick (tickIterState s cfg st n) s cfg).2

/-- Claim C1 (evaluation of the code at the failing trace): an exec event
at t=5ns arms the flush clock; a second exec event 300ms later finds the
ring buffer full (`reserveOk = false`), so `lost_events` is incremented —
but `maybe_flush` then resets the whole accumulator anyway, as witnessed
by `lost_events = 0` in the resulting counters; a third exec event
another 300ms later flushes successfully and its payload reports
`lost_events = 0`, not the `1` the spec promises. -/
theorem maybe_flush_drops_lost_events :
    (tp_execve none 1 0 false (tp_execve none 1 0 true {} 5).1 300000005).2 = none ∧
    (tp_execve none 1 0 false (tp_execve none 1 0 true {} 5).1 300000005).1.acc.lost_events = 0 ∧
    (tp_execve none 1 0 true
        (tp_execve none 1 0 false (tp_execve none 1 0 true {} 5).1 300000005).1
        600000005).2 =
      some { exec_count := 1, lost_events := 0 } := by
  decide

/-- Claim C2: the music engine is deterministic — two ticks with identical
signals, config, and identical `(bar, step)` cursor produce identical
frames (and identical successor states). -/
theorem music_tick_deterministic (s : Signal01) (cfg : MusicConfig)
    (st1 st2 : MusicEngineState) (hbar : st1.bar = st2.bar)
    (hstep : st1.step = st2.step) :
    MusicEngine.tick st1 s cfg = MusicEngine.tick st2 s cfg := by
  have h : st1 = st2 := by cases st1; cases st2; simp_all
  rw [h]

theorem music_tick_deterministic_witness :
    ({ bar := 3, step := 7 } : MusicEngineState).bar = MusicEngineState.bar { bar := 3, step := 7 } ∧
    ({ bar := 3, step := 7 } : MusicEngineState).step = MusicEngineState.step { bar := 3, step := 7 } ∧
    MusicEngine.tick { bar := 3, step := 7 } { exec := 1 } { density := 1 } =
      MusicEngine.tick { bar := 3, step := 7 } { exec := 1 } { density := 1 } :=
  ⟨rfl, rfl,
    music_tick_deterministic { exec := 1 } { density := 1 }
      { bar := 3, step := 7 } { bar := 3, step := 7 } rfl rfl⟩

theorem mem_ite_nil_elim {α : Type} {c : Prop} [Decidable c] {l : List α} {x : α}
    (h : x ∈ if c then l else []) : x ∈ l := by
  split at h
  · exact h
  · cases h

theorem advanceCursor_step (st : MusicEngineState) :
    (advanceCursor st).step = (st.step + 1) % 16 := by
  have h := Nat.and_pow_two_sub_one_eq_mod (st.step + 1) 4
  norm_num at h
  simp [advanceCursor, h]

theorem tick_silent_aux (st : MusicEngineState) (s : Signal01) (cfg : MusicConfig)
    (hact : activityOf s < 3 / 100) (hpreset : cfg.preset ≠ "drone") :
    MusicEngine.tick st s cfg = ({ notes := [], synth := baseline_synth s }, advanceCursor st) := by
  simp only [MusicEngine.tick]
  rw [if_pos ⟨hpreset, hact⟩]

/-- Claim C7: with all signals below the 0.03 activity gate and a preset
other than drone, a tick emits no notes, returns the baseline synth
snapshot, and still advances the step cursor modulo 16; consequently any
number of consecutive such ticks (in particular 64) stay empty. -/
theorem music_tick_silence_gate (st : MusicEngineState) (s : Signal01)
    (cfg : MusicConfig) (hact : activityOf s < 3 / 100)
    (hpreset : cfg.preset ≠ "drone") :
    (MusicEngine.tick st s cfg).1.notes = [] ∧
    (MusicEngine.tick st s cfg).1.synth = baseline_synth s ∧
    (MusicEngine.tick st s cfg).2.step = (st.step + 1) % 16 ∧
    (∀ n : ℕ, n < 64 → (MusicEngine.tick (tickIterState s cfg st n) s cfg).1.notes = []) := by
  refine ⟨?_, ?_, ?_, ?_⟩
  · rw [tick_silent_aux st s cfg hact hpreset]
  · rw [tick_silent_aux st s cfg hact hpreset]
  · rw [tick_silent_aux st s cfg hact hpreset]
    exact advanceCursor_step st
  · intro n _
    rw [tick_silent_aux _ s cfg hact hpreset]

theorem music_tick_silence_gate_witness :
    activityOf {} < 3 / 100 ∧
    ({ density := 1/2 } : MusicConfig).preset ≠ "drone" ∧
    ((MusicEngine.tick {} {} { density := 1/2 }).1.notes = [] ∧
      (MusicEngine.tick {} {} { density := 1/2 }).1.synth = baseline_synth {} ∧
      (MusicEngine.tick {} {} { density := 1/2 }).2.step = (MusicEngineState.step {} + 1) % 16 ∧
      (∀ n : ℕ, n < 64 →
        (MusicEngine.tick (tickIterState {} { density := 1/2 } {} n) {} { density := 1/2 }).1.notes = [])) :=
  ⟨by decide, by decide,
    music_tick_silence_gate {} {} { density := 1/2 } (by decide) (by decide)⟩

theorem clampZ_bounds (v lo hi : ℤ) (h : lo ≤ hi) :
    lo ≤ clampZ v lo hi ∧ clampZ v lo hi ≤ hi := by
  unfold clampZ
  split_ifs <;> omega

theorem push_note_bounds (m : ℤ) (v d : ℚ) :
    0 ≤ (push_note m v d).midi ∧ (push_note m v d).midi ≤ 127 ∧
    0 ≤ (push_note m v d).velocity ∧ (push_note m v d).velocity ≤ 1 ∧
    2 / 100 ≤ (push_note m v d).dur_s := by
  obtain ⟨h1, h2⟩ := clampZ_bounds m 0 127 (by norm_num)
  exact ⟨h1, h2, clamp01_nonneg v, clamp01_le_one v, le_max_left _ _⟩

theorem ambient_branch_pushed {s : Signal01} {key : ℤ} {sc : List ℤ}
    {dens act : ℚ} {sp0 : SynthParams} {seed : ℕ} {ev : NoteEvent}
    (hev : ev ∈ (ambient_branch s key sc dens act sp0 seed).1) :
    ∃ m v d, ev = push_note m v d := by
  simp only [ambient_branch] at hev
  rcases List.mem_append.mp hev with h | h
  · have h2 := mem_ite_nil_elim h
    rw [List.mem_singleton] at h2
    exact ⟨_, _, _, h2⟩
  · have h2 := mem_ite_nil_elim h
    rcases List.mem_cons.mp h2 with h3 | h3
    · exact ⟨_, _, _, h3⟩
    · rw [List.mem_singleton] at h3
      exact ⟨_, _, _, h3⟩

theorem percussive_branch_pushed {s : Signal01} {key : ℤ} {sc : List ℤ}
    {dens : ℚ} {step : ℕ} {sp0 : SynthParams} {seed : ℕ} {ev : NoteEvent}
    (hev : ev ∈ (percussive_branch s key sc dens step sp0 seed).1) :
    ∃ m v d, ev = push_note m v d := by
  simp only [percussive_branch] at hev
  rcases List.mem_append.mp hev with h | h
  · rcases List.mem_append.mp h with h1 | h1
    · have h2 := mem_ite_nil_elim h1
      have h3 := mem_ite_nil_elim h2
      rw [List.mem_singleton] at h3
      exact ⟨_, _, _, h3⟩
    · have h2 := mem_ite_nil_elim h1
      rw [List.mem_singleton] at h2
      exact ⟨_, _, _, h2⟩
  · have h2 := mem_ite_nil_elim h
    rw [List.mem_singleton] at h2
    exact ⟨_, _, _, h2⟩

theorem arp_branch_pushed {s : Signal01} {key : ℤ} {sc : List ℤ}
    {dens : ℚ} {step : ℕ} {sp0 : SynthParams} {seed : ℕ} {ev : NoteEvent}
    (hev : ev ∈ (arp_branch s key sc dens step sp0 seed).1) :
    ∃ m v d, ev = push_note m v d := by
  simp only [arp_branch] at hev
  rcases List.mem_append.mp hev with h | h
  · have h2 := mem_ite_nil_elim h
    rw [List.mem_singleton] at h2
    exact ⟨_, _, _, h2⟩
  · have h2 := mem_ite_nil_elim h
    rcases List.mem_cons.mp h2 with h3 | h3
    · exact ⟨_, _, _, h3⟩
    · rw [List.mem_singleton] at h3
      exact ⟨_, _, _, h3⟩

theorem drone_branch_pushed {s : Signal01} {key : ℤ} {sc : List ℤ}
    {dens : ℚ} {step : ℕ} {act : ℚ} {sp0 : SynthParams} {seed : ℕ} {ev : NoteEvent}
    (hev : ev ∈ (drone_branch s key sc dens step act sp0 seed).1) :
    ∃ m v d, ev = push_note m v d := by
  simp only [drone_branch] at hev
  rcases List.mem_append.mp hev with h | h
  · rcases List.mem_append.mp h with h1 | h1
    · have h2 := mem_ite_nil_elim h1
      rw [List.mem_singleton] at h2
      exact ⟨_, _, _, h2⟩
    · have h2 := mem_ite_nil_elim h1
      rw [List.mem_singleton] at h2
      exact ⟨_, _, _, h2⟩
  · have h2 := mem_ite_nil_elim h
    rw [List.mem_singleton] at h2
    exact ⟨_, _, _, h2⟩

/-- Claim C10: every note event in a frame returned by `MusicEngine::tick`
has a MIDI number in [0,127], a velocity in [0,1], and a duration of at
least 0.02 s, for every signal input, config, and cursor state. -/
theorem music_note_event_bounds (st : MusicEngineState) (s : Signal01)
    (cfg : MusicConfig) (ev : NoteEvent)
    (hev : ev ∈ (MusicEngine.tick st s cfg).1.notes) :
    0 ≤ ev.midi ∧ ev.midi ≤ 127 ∧ 0 ≤ ev.velocity ∧ ev.velocity ≤ 1 ∧
      2 / 100 ≤ ev.dur_s := by
  have hp : ∃ m v d, ev = push_note m v d := by
    simp only [MusicEngine.tick] at hev
    split at hev
    · simp at hev
    · split at hev
      · exact @ambient_branch_pushed _ _ _ _ _ (baseline_synth s) _ _ hev
      · split at hev
        · exact @percussive_branch_pushed _ _ _ _ _ (baseline_synth s) _ _ hev
        · split at hev
          · exact @arp_branch_pushed _ _ _ _ _ (baseline_synth s) _ _ hev
          · exact @drone_branch_pushed _ _ _ _ _ _ (baseline_synth s) _ _ hev
  obtain ⟨m, v, d, rfl⟩ := hp
  exact push_note_bounds m v d

theorem music_note_event_bounds_witness :
    ({ midi := 38, velocity := 8/100, dur_s := 23/10 } : NoteEvent) ∈
        (MusicEngine.tick {} {} { preset := "drone", density := 0 }).1.notes ∧
    (0 ≤ ({ midi := 38, velocity := 8/100, dur_s := 23/10 } : NoteEvent).midi ∧
      ({ midi := 38, velocity := 8/100, dur_s := 23/10 } : NoteEvent).midi ≤ 127 ∧
      0 ≤ ({ midi := 38, velocity := 8/100, dur_s := 23/10 } : NoteEvent).velocity ∧
      ({ midi := 38, velocity := 8/100, dur_s := 23/10 } : NoteEvent).velocity ≤ 1 ∧
      2 / 100 ≤ ({ midi := 38, velocity := 8/100, dur_s := 23/10 } : NoteEvent).dur_s) :=
  ⟨by decide,
    music_note_event_bounds {} {} { preset := "drone", density := 0 }
      { midi := 38, velocity := 8/100, dur_s := 23/10 } (by decide)⟩

/-- The mid-hit firing probability as the specification words it:
`density · (rx+tx)/2 · 0.45` plus a 0.10 floor scaled by density.
(Refinement comparison definition, written from the spec text, to be
compared against `percussive_p_mid`, which is what the code computes.) -/
def spec_percussive_p_mid (dens rx tx : ℚ) : ℚ :=
  dens * ((rx + tx) / 2) * (45 / 100) + (10 / 100) * dens

/-- Claim C5, counterexample: the mid-hit threshold the code uses
(`dens · (0.10 + 0.90·(rx+tx)/2) · 0.35`, see `percussive_p_mid` inside
`percussive_branch`) differs from the probability expression the spec
states, already at density 1 and zero network signals: the code yields
0.035 where the spec promises 0.10. -/
theorem percussive_mid_prob_differs :
    percussive_p_mid 1 0 0 ≠ spec_percussive_p_mid 1 0 0 ∧
    percussive_p_mid 1 0 0 = 35 / 1000 ∧ spec_percussive_p_mid 1 0 0 = 10 / 100 := by
  refine ⟨?_, ?_, ?_⟩ <;> norm_num [percussive_p_mid, spec_percussive_p_mid]

theorem percussive_branch_mid_char (s : Signal01) (key : ℤ) (sc : List ℤ)
    (dens : ℚ) (step : ℕ) (sp0 : SynthParams) (seed : ℕ) :
    ((∃ ev ∈ (percussive_branch s key sc dens step sp0 seed).1, ev.dur_s = 7 / 100) ↔
      frand01 (percussive_mid_state s dens step seed) <
        percussive_p_mid dens s.rx s.tx) ∧
    (∀ ev ∈ (percussive_branch s key sc dens step sp0 seed).1, ev.dur_s = 7 / 100 →
      ∃ deg : ℤ, ev = push_note (pick_note key sc deg 2)
        (clamp01 (10 / 100 + 60 / 100 * (s.rx + s.tx) * (1 / 2))) (7 / 100)) := by
  have h8 : ¬(max (2 / 100 : ℚ) (8 / 100) = 7 / 100) := by decide
  have h5 : ¬(max (2 / 100 : ℚ) (5 / 100) = 7 / 100) := by decide
  have h7 : max (2 / 100 : ℚ) (7 / 100) = 7 / 100 := by decide
  simp only [percussive_branch]
  constructor
  · constructor
    · rintro ⟨ev, hev, hdur⟩
      rcases List.mem_append.mp hev with h | h
      · exfalso
        rcases List.mem_append.mp h with h1 | h1
        · have h2 := mem_ite_nil_elim (mem_ite_nil_elim h1)
          rw [List.mem_singleton] at h2
          rw [h2] at hdur
          exact h8 hdur
        · have h2 := mem_ite_nil_elim h1
          rw [List.mem_singleton] at h2
          rw [h2] at hdur
          exact h5 hdur
      · by_cases hm : frand01 (percussive_mid_state s dens step seed) <
            percussive_p_mid dens s.rx s.tx
        · exact hm
        · rw [if_neg hm] at h
          cases h
    · intro hm
      refine ⟨push_note (pick_note key sc
          (truncQ (frand01 (sm_next (percussive_mid_state s dens step seed)) * sc.length)) 2)
          (clamp01 (10 / 100 + 60 / 100 * (s.rx + s.tx) * (1 / 2))) (7 / 100), ?_, ?_⟩
      · refine List.mem_append.mpr (Or.inr ?_)
        rw [if_pos hm]
        exact List.mem_singleton.mpr rfl
      · exact h7
  · intro ev hev hdur
    rcases List.mem_append.mp hev with h | h
    · exfalso
      rcases List.mem_append.mp h with h1 | h1
      · have h2 := mem_ite_nil_elim (mem_ite_nil_elim h1)
        rw [List.mem_singleton] at h2
        rw [h2] at hdur
        exact h8 hdur
      · have h2 := mem_ite_nil_elim h1
        rw [List.mem_singleton] at h2
        rw [h2] at hdur
        exact h5 hdur
    · have h2 := mem_ite_nil_elim h
      rw [List.mem_singleton] at h2
      exact ⟨_, h2⟩

/-- Claim C5, amended: in the percussive preset (once past the activity
gate), the mid hit — the note with the 0.07 s duration unique to that
branch — fires exactly when the splitmix draw falls below
`dens · (0.10 + 0.90·(rx+tx)/2) · 0.35` (not the spec expression), and
the emitted note sits at octave 2. -/
theorem percussive_mid_hit_amended (st : MusicEngineState) (s : Signal01)
    (cfg : MusicConfig) (hp : cfg.preset = "percussive")
    (hact : 3 / 100 ≤ activityOf s) :
    ((∃ ev ∈ (MusicEngine.tick st s cfg).1.notes, ev.dur_s = 7 / 100) ↔
      frand01 (percussive_mid_state s (clamp01 cfg.density) st.step
          (tick_seed st.bar st.step s)) <
        percussive_p_mid (clamp01 cfg.density) s.rx s.tx) ∧
    (∀ ev ∈ (MusicEngine.tick st s cfg).1.notes, ev.dur_s = 7 / 100 →
      ∃ deg : ℤ, ev = push_note
        (pick_note (clampZ cfg.key_midi 0 127) (scale_from_string cfg.scale) deg 2)
        (clamp01 (10 / 100 + 60 / 100 * (s.rx + s.tx) * (1 / 2))) (7 / 100)) := by
  have hgate : ¬(cfg.preset ≠ "drone" ∧ activityOf s < 3 / 100) := by
    rintro ⟨-, hlt⟩
    linarith
  have hamb : ¬(cfg.preset = "ambient") := by
    rw [hp]
    decide
  simp only [MusicEngine.tick, if_neg hgate, if_neg hamb, if_pos hp]
  exact percussive_branch_mid_char s (clampZ cfg.key_midi 0 127)
    (scale_from_string cfg.scale) (clamp01 cfg.density) st.step
    (baseline_synth s) (tick_seed st.bar st.step s)

theorem percussive_mid_hit_amended_witness :
    ({ preset := "percussive" } : MusicConfig).preset = "percussive" ∧
    3 / 100 ≤ activityOf { exec := 1/2 } ∧
    (((∃ ev ∈ (MusicEngine.tick {} { exec := 1/2 } { preset := "percussive" }).1.notes,
        ev.dur_s = 7 / 100) ↔
      frand01 (percussive_mid_state { exec := 1/2 }
          (clamp01 (MusicConfig.density { preset := "percussive" }))
          (MusicEngineState.step {}) (tick_seed (MusicEngineState.bar {}) (MusicEngineState.step {}) { exec := 1/2 })) <
        percussive_p_mid (clamp01 (MusicConfig.density { preset := "percussive" }))
          (Signal01.rx { exec := 1/2 }) (Signal01.tx { exec := 1/2 })) ∧
    (∀ ev ∈ (MusicEngine.tick {} { exec := 1/2 } { preset := "percussive" }).1.notes,
      ev.dur_s = 7 / 100 →
      ∃ deg : ℤ, ev = push_note
        (pick_note (clampZ (MusicConfig.key_midi { preset := "percussive" }) 0 127)
          (scale_from_string (MusicConfig.scale { preset := "percussive" })) deg 2)
        (clamp01 (10 / 100 + 60 / 100 *
          (Signal01.rx { exec := 1/2 } + Signal01.tx { exec := 1/2 }) * (1 / 2))) (7 / 100))) :=
  ⟨rfl, by decide,
    percussive_mid_hit_amended {} { exec := 1/2 } { preset := "percussive" } rfl (by decide)⟩

/-! ## OSC encoding (`src/daemon/src/osc/encode.h`)

Byte strings are `List ℕ` (each element a byte value). IEEE binary32
values travel as their 32-bit patterns; the float operations
`std::clamp(v, 0, 1)` and `std::max(0, d)` applied before serialisation
are abstracted as functions on bit patterns. -/

/-- `pad4`: append zero bytes until the length is a multiple of 4 (the
source loops `while (size & 3) push_back(0)`; the closed form appends
`(4 - len % 4) % 4` zeros). -/
def pad4 (b : List ℕ) : List ℕ :=
  b ++ List.replicate ((4 - b.length % 4) % 4) 0

/-- `put_str`: append the bytes of the string, a NUL terminator, and pad. -/
def put_str (b : List ℕ) (s : List ℕ) : List ℕ :=
  pad4 (b ++ s ++ [0])

/-- Big-endian byte serialisation of a 32-bit word (`htonl` layout). -/
def be32 (w : ℕ) : List ℕ :=
  [w / 2 ^ 24 % 256, w / 2 ^ 16 % 256, w / 2 ^ 8 % 256, w % 256]

/-- `put_i32`: append the big-endian bytes of a 32-bit two's-complement
integer. -/
def put_i32 (b : List ℕ) (v : ℤ) : List ℕ :=
  b ++ be32 ((v % 2 ^ 32).toNat)

/-- `put_f32`: append the big-endian bytes of a binary32 bit pattern. -/
def put_f32 (b : List ℕ) (bits : ℕ) : List ℕ :=
  b ++ be32 (bits % 2 ^ 32)

/-- The bytes of the OSC address `"/khor/note"`. -/
def addr_khor_note : List ℕ := [47, 107, 104, 111, 114, 47, 110, 111, 116, 101]

/-- The bytes of the OSC type tag `",iff"`. -/
def tag_iff : List ℕ := [44, 105, 102, 102]

/-- `encode_note`: address, type tag, clamped MIDI int, clamped velocity
float, floored duration float. `clamp01f` and `max0f` abstract the IEEE
float operations on the velocity/duration bit patterns. -/
def encode_note (clamp01f max0f : ℕ → ℕ) (midi : ℤ) (velBits durBits : ℕ) : List ℕ :=
  let b := put_str [] addr_khor_note
  let b := put_str b tag_iff
  let b := put_i32 b (clampZ midi 0 127)
  let b := put_f32 b (clamp01f velBits)
  put_f32 b (max0f durBits)

/-- OSC string reader: bytes up to the first NUL, then skip the NUL and
the padding to the next 4-byte boundary. -/
def read_str (b : List ℕ) : List ℕ × List ℕ :=
  let s := b.takeWhile (fun x => x ≠ 0)
  let consumed := s.length + 1
  (s, b.drop (consumed + (4 - consumed % 4) % 4))

/-- Read one big-endian 32-bit word. -/
def read_u32 (b : List ℕ) : ℕ × List ℕ :=
  (b.getD 0 0 * 2 ^ 24 + b.getD 1 0 * 2 ^ 16 + b.getD 2 0 * 2 ^ 8 + b.getD 3 0, b.drop 4)

/-- Interpret a 32-bit word as a two's-complement signed integer. -/
def as_i32 (w : ℕ) : ℤ :=
  if w < 2 ^ 31 then (w : ℤ) else (w : ℤ) - 2 ^ 32

/-- OSC `/khor/note` message decoder: address, type tag, the int argument
and the two float-bit-pattern arguments. -/
def decode_note (b : List ℕ) : List ℕ × List ℕ × ℤ × ℕ × ℕ :=
  let r1 := read_str b
  let r2 := read_str r1.2
  let a1 := read_u32 r2.2
  let a2 := read_u32 a1.2
  let a3 := read_u32 a2.2
  (r1.1, r2.1, as_i32 a1.1, a2.1, a3.1)

theorem read_u32_be32 (w : ℕ) (hw : w < 2 ^ 32) (rest : List ℕ) :
    read_u32 (be32 w ++ rest) = (w, rest) := by
  simp only [read_u32, be32, List.cons_append, List.nil_append, List.getD_cons_zero,
    List.getD_cons_succ, List.drop_succ_cons, List.drop_zero, Prod.mk.injEq]
  exact ⟨by omega, trivial⟩

theorem read_u32_be32_nil (w : ℕ) (hw : w < 2 ^ 32) : (read_u32 (be32 w)).1 = w := by
  simp only [read_u32, be32, List.getD_cons_zero, List.getD_cons_succ]
  omega

theorem encode_note_eq (clamp01f max0f : ℕ → ℕ) (midi : ℤ) (velBits durBits : ℕ) :
    encode_note clamp01f max0f midi velBits durBits =
      (addr_khor_note ++ [0, 0]) ++ ((tag_iff ++ [0, 0, 0, 0]) ++
        (be32 ((clampZ midi 0 127 % 2 ^ 32).toNat) ++
          (be32 (clamp01f velBits % 2 ^ 32) ++ be32 (max0f durBits % 2 ^ 32)))) := by
  simp [encode_note, put_str, pad4, put_i32, put_f32, addr_khor_note, tag_iff, be32]

theorem read_str_addr (rest : List ℕ) :
    read_str ((addr_khor_note ++ [0, 0]) ++ rest) = (addr_khor_note, rest) := by
  simp [read_str, addr_khor_note]

theorem read_str_tag (rest : List ℕ) :
    read_str ((tag_iff ++ [0, 0, 0, 0]) ++ rest) = (tag_iff, rest) := by
  simp [read_str, tag_iff]

/-- Claim C6: for a `NoteEvent` with MIDI number in [0,127], `encode_note`
produces bytes whose OSC address decodes to `"/khor/note"`, whose type
tag decodes to `",iff"`, whose three big-endian arguments decode back to
exactly the MIDI number, the clamped velocity, and the floored duration
(as bit patterns), and whose total length is a multiple of 4. -/
theorem osc_encode_note_roundtrip (clamp01f max0f : ℕ → ℕ)
    (hc : ∀ n, clamp01f n < 2 ^ 32) (hm : ∀ n, max0f n < 2 ^ 32)
    (midi : ℤ) (velBits durBits : ℕ) (h0 : 0 ≤ midi) (h127 : midi ≤ 127) :
    decode_note (encode_note clamp01f max0f midi velBits durBits) =
      (addr_khor_note, tag_iff, midi, clamp01f velBits, max0f durBits) ∧
    (encode_note clamp01f max0f midi velBits durBits).length % 4 = 0 := by
  have hclamp : clampZ midi 0 127 = midi := by
    unfold clampZ
    split_ifs <;> omega
  have hmidi : ((clampZ midi 0 127 % 2 ^ 32).toNat : ℕ) < 2 ^ 32 := by
    rw [hclamp]
    omega
  have hv := hc velBits
  have hd := hm durBits
  have hint : as_i32 ((clampZ midi 0 127 % 2 ^ 32).toNat) = midi := by
    rw [hclamp]
    have h2 : midi % 2 ^ 32 = midi := by omega
    rw [h2]
    unfold as_i32
    split_ifs with h <;> omega
  constructor
  · rw [encode_note_eq]
    simp only [decode_note, read_str_addr, read_str_tag,
      read_u32_be32 _ hmidi,
      read_u32_be32 _ (Nat.mod_lt (clamp01f velBits) (by norm_num)),
      Prod.mk.injEq]
    refine ⟨trivial, trivial, hint, Nat.mod_eq_of_lt hv, ?_⟩
    rw [read_u32_be32_nil _ (Nat.mod_lt (max0f durBits) (by norm_num))]
    exact Nat.mod_eq_of_lt hd
  · rw [encode_note_eq]
    simp [addr_khor_note, tag_iff, be32]

theorem osc_encode_note_roundtrip_witness :
    ((∀ n, n % 2 ^ 32 < 2 ^ 32) ∧ (0 : ℤ) ≤ 64 ∧ (64 : ℤ) ≤ 127) ∧
    (decode_note (encode_note (fun n => n % 2 ^ 32) (fun n => n % 2 ^ 32) 64 1056964608 1048576000) =
      (addr_khor_note, tag_iff, 64, 1056964608 % 2 ^ 32, 1048576000 % 2 ^ 32) ∧
    (encode_note (fun n => n % 2 ^ 32) (fun n => n % 2 ^ 32) 64 1056964608 1048576000).length % 4 = 0) :=
  ⟨⟨fun n => Nat.mod_lt n (by norm_num), by norm_num, by norm_num⟩,
    osc_encode_note_roundtrip (fun n => n % 2 ^ 32) (fun n => n % 2 ^ 32)
      (fun n => Nat.mod_lt n (by norm_num)) (fun n => Nat.mod_lt n (by norm_num))
      64 1056964608 1048576000 (by norm_num) (by norm_num)⟩

/-! ## ADSR envelope (`src/daemon/src/audio/dsp.h`) -/

inductive AdsrStage where
  | off
  | attack
  | decay
  | sustain
  | release
deriving Repr, DecidableEq

/-- `struct Adsr` with its default member initialisers. The float
arithmetic is embedded exactly over ℚ; the `1e-6f` epsilon is embedded
as `1/1000000`. -/
structure Adsr where
  a_s : ℚ := 5 / 1000
  d_s : ℚ := 80 / 1000
  s_level : ℚ := 55 / 100
  r_s : ℚ := 140 / 1000
  stage : AdsrStage := .off
  value : ℚ := 0
  release_step : ℚ := 0
deriving Repr, DecidableEq

/-- `Adsr::note_on` (the sample-rate argument is unused in the source). -/
def Adsr.note_on (a : Adsr) (sr : ℚ) : Adsr :=
  let _ := sr
  { a with stage := .attack, value := 0, release_step := 0 }

/-- `Adsr::note_off`: entering release computes the per-sample decrement
`value / max(1, r_s·sr)` from the value at release onset. -/
def Adsr.note_off (a : Adsr) (sr : ℚ) : Adsr :=
  if a.stage = .off ∨ a.stage = .release then a
  else { a with stage := .release, release_step := a.value / max 1 (a.r_s * sr) }

/-- `Adsr::tick`: one sample of the linear A/D/S/R staircase. -/
def Adsr.tick (a : Adsr) (sr : ℚ) : Adsr :=
  match a.stage with
  | .off => { a with value := 0 }
  | .attack =>
    let v := a.value + 1 / max 1 (a.a_s * sr)
    if 1 ≤ v then { a with value := 1, stage := .decay } else { a with value := v }
  | .decay =>
    let v := a.value - (1 - a.s_level) / max 1 (a.d_s * sr)
    if v ≤ a.s_level then { a with value := a.s_level, stage := .sustain }
    else { a with value := v }
  | .sustain => a
  | .release =>
    let dec := if 0 < a.release_step then a.release_step else 1 / max 1 (a.r_s * sr)
    let v := a.value - dec
    if v ≤ 1 / 1000000 then { a with value := 0, stage := .off } else { a with value := v }

/-- The envelope parameters of the boundary-behaviour test in the spec:
`a_s = 0.01, d_s = 0.01, s = 0.5, r_s = 0.02`. -/
def adsrTest : Adsr :=
  { a_s := 1 / 100, d_s := 1 / 100, s_level := 1 / 2, r_s := 1 / 50 }

/-- The test envelope after `note_on` and `n` ticks at 1000 Hz. -/
def adsrRun (n : ℕ) : Adsr :=
  (fun a => Adsr.tick a 1000)^[n] (adsrTest.note_on 1000)

/-- A released test envelope holding value `v` with the release decrement
`note_off` computes at 1000 Hz (`r_s·sr = 20`). -/
def adsrRelease (v : ℚ) : Adsr :=
  { adsrTest with stage := .release, value := v, release_step := v / 20 }

theorem Adsr.tick_off_state (a : Adsr) (sr : ℚ) (h : a.stage = .off) :
    a.tick sr = { a with value := 0 } := by
  unfold Adsr.tick
  rw [h]

theorem Adsr.tick_release_state (a : Adsr) (sr : ℚ) (h : a.stage = .release)
    (hstep : 0 < a.release_step) :
    a.tick sr =
      (if a.value - a.release_step ≤ 1 / 1000000
       then { a with value := 0, stage := .off }
       else { a with value := a.value - a.release_step }) := by
  unfold Adsr.tick
  rw [h]
  simp only [if_pos hstep]

theorem adsr_release_invariant (v : ℚ) (hv : 0 < v) (k : ℕ) :
    (((fun a => Adsr.tick a 1000)^[k] (adsrRelease v)).stage = .off ∧
      ((fun a => Adsr.tick a 1000)^[k] (adsrRelease v)).value = 0) ∨
    (((fun a => Adsr.tick a 1000)^[k] (adsrRelease v)).stage = .release ∧
      ((fun a => Adsr.tick a 1000)^[k] (adsrRelease v)).value = v * (20 - k) / 20 ∧
      ((fun a => Adsr.tick a 1000)^[k] (adsrRelease v)).release_step = v / 20) := by
  induction k with
  | zero =>
    right
    refine ⟨rfl, ?_, rfl⟩
    show v = v * (20 - (0 : ℕ)) / 20
    push_cast
    ring
  | succ k ih =>
    simp only [Function.iterate_succ_apply']
    rcases ih with ⟨hs, hval⟩ | ⟨hs, hval, hstep⟩
    · left
      rw [Adsr.tick_off_state _ 1000 hs]
      exact ⟨hs, rfl⟩
    · have hdec : 0 < ((fun a => Adsr.tick a 1000)^[k] (adsrRelease v)).release_step := by
        rw [hstep]
        positivity
      rw [Adsr.tick_release_state _ 1000 hs hdec, hval, hstep]
      by_cases hc : v * (20 - k) / 20 - v / 20 ≤ 1 / 1000000
      · left
        rw [if_pos hc]
        exact ⟨rfl, rfl⟩
      · right
        rw [if_neg hc]
        refine ⟨hs, ?_, rfl⟩
        show v * (20 - (k : ℚ)) / 20 - v / 20 = v * (20 - ((k : ℕ) + 1 : ℕ)) / 20
        push_cast
        ring

/-- The uniform release tail: after exactly 20 release samples the test
envelope is off with value 0, for every positive starting value. -/
theorem adsr_release_tail_20 (v : ℚ) (hv : 0 < v) :
    ((fun a => Adsr.tick a 1000)^[20] (adsrRelease v)).stage = .off ∧
    ((fun a => Adsr.tick a 1000)^[20] (adsrRelease v)).value = 0 := by
  have h19 := adsr_release_invariant v hv 19
  have h20 : ((fun a => Adsr.tick a 1000)^[20] (adsrRelease v)) =
      Adsr.tick ((fun a => Adsr.tick a 1000)^[19] (adsrRelease v)) 1000 := by
    simp only [show (20 : ℕ) = 19 + 1 from rfl, Function.iterate_succ_apply']
  rcases h19 with ⟨hs, hval⟩ | ⟨hs, hval, hstep⟩
  · rw [h20, Adsr.tick_off_state _ 1000 hs]
    exact ⟨hs, rfl⟩
  · have hdec : 0 < ((fun a => Adsr.tick a 1000)^[19] (adsrRelease v)).release_step := by
      rw [hstep]
      positivity
    have hc : v * (20 - (19 : ℕ)) / 20 - v / 20 ≤ 1 / 1000000 := by
      push_cast
      have h0 : v * (20 - (19 : ℚ)) / 20 - v / 20 = 0 := by ring
      rw [h0]
      norm_num
    rw [h20, Adsr.tick_release_state _ 1000 hs hdec, hval, hstep, if_pos hc]
    exact ⟨rfl, rfl⟩

/-- Claim C8: the test envelope (`a_s=0.01, d_s=0.01, s=0.5, r_s=0.02` at
1000 Hz) reaches a value ≥ 0.95 within 40 samples of `note_on` (at sample
10 it is exactly 1), is within 0.08 of the sustain level 0.5 by sample
40+50, and falls below 1e-6 within 80 samples of `note_off`; the release
decrement is `value_at_release / max(1, r_s·sr)` by construction, and the
release tail is exactly 20 samples for every positive release value, so
its length does not depend on where release begins. -/
theorem adsr_envelope_behaviour :
    (∃ n : ℕ, n ≤ 40 ∧ 95 / 100 ≤ (adsrRun n).value) ∧
    |(adsrRun 90).value - 1 / 2| ≤ 8 / 100 ∧
    (∃ n : ℕ, n ≤ 80 ∧
      ((fun a => Adsr.tick a 1000)^[n] ((adsrRun 90).note_off 1000)).value < 1 / 1000000) ∧
    (∀ (a : Adsr) (sr : ℚ), ¬(a.stage = .off ∨ a.stage = .release) →
      (a.note_off sr).release_step = a.value / max 1 (a.r_s * sr)) ∧
    (∀ v : ℚ, 0 < v →
      ((fun a => Adsr.tick a 1000)^[20] (adsrRelease v)).stage = .off ∧
      ((fun a => Adsr.tick a 1000)^[20] (adsrRelease v)).value = 0) := by
  refine ⟨⟨10, by norm_num, by decide⟩, by decide, ⟨20, by norm_num, by decide⟩, ?_, ?_⟩
  · intro a sr h
    unfold Adsr.note_off
    rw [if_neg h]
  · intro v hv
    exact adsr_release_tail_20 v hv

theorem adsr_envelope_behaviour_witness :
    (¬(Adsr.stage { adsrTest with stage := .sustain, value := 1/2 } = .off ∨
        Adsr.stage { adsrTest with stage := .sustain, value := 1/2 } = .release) ∧
      (Adsr.note_off { adsrTest with stage := .sustain, value := 1/2 } 1000).release_step =
        Adsr.value { adsrTest with stage := .sustain, value := 1/2 } /
          max 1 (Adsr.r_s { adsrTest with stage := .sustain, value := 1/2 } * 1000)) ∧
    ((0 : ℚ) < 1/2 ∧
      ((fun a => Adsr.tick a 1000)^[20] (adsrRelease (1/2))).stage = .off ∧
      ((fun a => Adsr.tick a 1000)^[20] (adsrRelease (1/2))).value = 0) :=
  ⟨⟨by decide,
      adsr_envelope_behaviour.2.2.2.1 { adsrTest with stage := .sustain, value := 1/2 } 1000
        (by decide)⟩,
    ⟨by norm_num, adsr_envelope_behaviour.2.2.2.2 (1/2) (by norm_num)⟩⟩

/-! ## Config and control surface
(`src/daemon/src/util/json.h`, `src/daemon/src/app/config.{h,cpp}`,
`src/daemon/src/app/app.cpp` `App::api_put_config`) -/

/-- `JsonValue` (numbers embedded as exact rationals, objects as ordered
key/value lists, mirroring the `std::map` lookup by exact key). -/
inductive Json where
  | null
  | jbool (b : Bool)
  | num (q : ℚ)
  | str (s : String)
  | arr (a : List Json)
  | obj (o : List (String × Json))

/-- `JsonValue::is_object`. -/
def Json.isObject : Json → Bool
  | .obj _ => true
  | _ => false

/-- `json_get`: object member lookup (null for non-objects and missing
keys). -/
def json_get (v : Json) (key : String) : Option Json :=
  match v with
  | .obj o => (o.find? (fun p => p.1 == key)).map (fun p => p.2)
  | _ => none

/-- `json_get_bool` with default. -/
def json_get_bool (v : Json) (key : String) (dflt : Bool) : Bool :=
  match json_get v key with
  | some (.jbool b) => b
  | _ => dflt

/-- `json_get_number` with default. -/
def json_get_number (v : Json) (key : String) (dflt : ℚ) : ℚ :=
  match json_get v key with
  | some (.num q) => q
  | _ => dflt

/-- `json_get_string` with default. -/
def json_get_string (v : Json) (key : String) (dflt : String) : String :=
  match json_get v key with
  | some (.str s) => s
  | _ => dflt

/-- `obj_get_obj` from `config.cpp`: member that is itself an object. -/
def obj_get_obj (v : Json) (key : String) : Option Json :=
  match json_get v key with
  | some j => if j.isObject then some j else none
  | none => none

/-- C cast of a signed value to `uint32_t` (mod `2^32`). -/
def toU32 (z : ℤ) : ℕ := (z % 2 ^ 32).toNat

/-- `std::clamp` on unsigned integers. -/
def clampN (v lo hi : ℕ) : ℕ :=
  if v < lo then lo else if hi < v then hi else v

/-- `KhorConfig` with the defaults from `config.h`. -/
structure KhorConfig where
  version : ℤ := 1
  listen_host : String := "127.0.0.1"
  listen_port : ℤ := 17321
  serve_ui : Bool := true
  ui_dir : String := ""
  enable_bpf : Bool := true
  enable_audio : Bool := true
  enable_midi : Bool := false
  enable_osc : Bool := false
  enable_fake : Bool := false
  bpf_enabled_mask : ℕ := 0xFFFFFFFF
  bpf_sample_interval_ms : ℕ := 200
  bpf_tgid_allow : ℕ := 0
  bpf_tgid_deny : ℕ := 0
  bpf_cgroup_id : ℕ := 0
  bpm : ℚ := 110
  key_midi : ℤ := 62
  scale : String := "pentatonic_minor"
  preset : String := "ambient"
  density : ℚ := 35 / 100
  smoothing : ℚ := 85 / 100
  audio_backend : String := ""
  audio_device : String := ""
  audio_sample_rate : ℤ := 48000
  audio_master_gain : ℚ := 25 / 100
  midi_port : String := "khor"
  midi_channel : ℤ := 1
  osc_host : String := "127.0.0.1"
  osc_port : ℤ := 9000
deriving Repr, DecidableEq

/-- Apply a section updater when the member exists and is an object. -/
def applySection (root : Json) (key : String)
    (f : Json → KhorConfig → KhorConfig) (cfg : KhorConfig) : KhorConfig :=
  match obj_get_obj root key with
  | some j => f j cfg
  | none => cfg

/-- `config_from_json` from `config.cpp`: fails only when the root is not
a JSON object; every recognised numeric field is clamped into its bounds;
strings (including scale/preset enum names) are taken as-is. -/
def config_from_json (root : Json) (cfg0 : KhorConfig) : Except String KhorConfig :=
  if root.isObject = false then
    .error "config root must be a JSON object"
  else
    let cfg := { cfg0 with version := truncQ (json_get_number root "version" (cfg0.version : ℚ)) }
    let cfg := applySection root "listen" (fun l c =>
      { c with listen_host := json_get_string l "host" c.listen_host,
               listen_port := clampZ (truncQ (json_get_number l "port" (c.listen_port : ℚ))) 1 65535 }) cfg
    let cfg := applySection root "ui" (fun u c =>
      { c with serve_ui := json_get_bool u "serve" c.serve_ui,
               ui_dir := json_get_string u "dir" c.ui_dir }) cfg
    let cfg := applySection root "features" (fun f c =>
      { c with enable_bpf := json_get_bool f "bpf" c.enable_bpf,
               enable_audio := json_get_bool f "audio" c.enable_audio,
               enable_midi := json_get_bool f "midi" c.enable_midi,
               enable_osc := json_get_bool f "osc" c.enable_osc,
               enable_fake := json_get_bool f "fake" c.enable_fake }) cfg
    let cfg := applySection root "bpf" (fun b c =>
      { c with bpf_enabled_mask := toU32 (truncQ (json_get_number b "enabled_mask" (c.bpf_enabled_mask : ℚ))),
               bpf_sample_interval_ms :=
                 clampN (toU32 (truncQ (json_get_number b "sample_interval_ms" (c.bpf_sample_interval_ms : ℚ)))) 10 5000 }) cfg
    let cfg := applySection root "music" (fun m c =>
      { c with bpm := clampQ (json_get_number m "bpm" c.bpm) 1 400,
               key_midi := clampZ (truncQ (json_get_number m "key_midi" (c.key_midi : ℚ))) 0 127,
               scale := json_get_string m "scale" c.scale,
               preset := json_get_string m "preset" c.preset,
               density := clampQ (json_get_number m "density" c.density) 0 1,
               smoothing := clampQ (json_get_number m "smoothing" c.smoothing) 0 1 }) cfg
    let cfg := applySection root "audio" (fun a c =>
      { c with audio_backend := json_get_string a "backend" c.audio_backend,
               audio_device := json_get_string a "device" c.audio_device,
               audio_sample_rate := clampZ (truncQ (json_get_number a "sample_rate" (c.audio_sample_rate : ℚ))) 8000 192000,
               audio_master_gain := clampQ (json_get_number a "master_gain" c.audio_master_gain) 0 2 }) cfg
    let cfg := applySection root "midi" (fun m c =>
      { c with midi_port := json_get_string m "port" c.midi_port,
               midi_channel := clampZ (truncQ (json_get_number m "channel" (c.midi_channel : ℚ))) 1 16 }) cfg
    let cfg := applySection root "osc" (fun o c =>
      { c with osc_host := json_get_string o "host" c.osc_host,
               osc_port := clampZ (truncQ (json_get_number o "port" (c.osc_port : ℚ))) 1 65535 }) cfg
    let cfg := { cfg with bpm := clampQ (json_get_number root "bpm" cfg.bpm) 1 400,
                          key_midi := clampZ (truncQ (json_get_number root "key_midi" (cfg.key_midi : ℚ))) 0 127 }
    .ok cfg

/-- The live atomics `api_put_config` always stores on success
(`metrics_.bpm/key_midi`, `density_`, `smoothing_`, and the audio master
gain). -/
structure Atomics where
  bpm : ℚ := 110
  key_midi : ℤ := 62
  density : ℚ := 35 / 100
  smoothing : ℚ := 85 / 100
  master_gain : ℚ := 25 / 100
deriving Repr, DecidableEq

/-- Sink lifecycle operations `api_put_config` may perform. -/
inductive SinkAction where
  | audio_start
  | audio_stop
  | audio_restart
  | midi_stop
  | midi_start
  | osc_stop
  | osc_start
  | bpf_stop
  | bpf_start
  | bpf_apply_cfg
  | fake_start
  | fake_stop_join
deriving Repr, DecidableEq

/-- The live state `api_put_config` can touch: the owned config, the hot
atomics, and a log of sink lifecycle operations performed. -/
structure AppState where
  cfg : KhorConfig := {}
  atomics : Atomics := {}
  actions : List SinkAction := []
deriving Repr, DecidableEq

structure PutConfigResult where
  state : AppState
  status : ℕ
  error : Option String
  restart_required : Bool := false
deriving Repr, DecidableEq

/-- `App::api_put_config`: reject non-object patches with 400 and no state
change; otherwise merge, live-apply atomics, decide sink restarts, store
the config, and answer 200. `bpf_ok` models `bpf_.status().ok` and
`fake_running` the fake-generator flag. -/
def api_put_config (st : AppState) (patch : Json) (bpf_ok fake_running : Bool) :
    PutConfigResult :=
  if patch.isObject = false then
    { state := st, status := 400, error := some "config patch must be a JSON object" }
  else
    match config_from_json patch st.cfg with
    | .error e => { state := st, status := 400, error := some e }
    | .ok next =>
      let prev := st.cfg
      let restart_required :=
        prev.listen_host ≠ next.listen_host ∨ prev.listen_port ≠ next.listen_port ∨
          prev.ui_dir ≠ next.ui_dir ∨ prev.serve_ui ≠ next.serve_ui
      let atomics : Atomics :=
        { bpm := next.bpm, key_midi := next.key_midi, density := next.density,
          smoothing := next.smoothing, master_gain := next.audio_master_gain }
      let audio_acts : List SinkAction :=
        if prev.enable_audio ≠ next.enable_audio then
          (if next.enable_audio then [.audio_start] else [.audio_stop])
        else if next.enable_audio ∧
            (prev.audio_backend ≠ next.audio_backend ∨
              prev.audio_sample_rate ≠ next.audio_sample_rate ∨
              prev.audio_device ≠ next.audio_device) then [.audio_restart]
        else []
      let midi_acts : List SinkAction :=
        if prev.enable_midi ≠ next.enable_midi ∨ prev.midi_port ≠ next.midi_port ∨
            prev.midi_channel ≠ next.midi_channel then
          .midi_stop :: (if next.enable_midi then [.midi_start] else [])
        else []
      let osc_acts : List SinkAction :=
        if prev.enable_osc ≠ next.enable_osc ∨ prev.osc_host ≠ next.osc_host ∨
            prev.osc_port ≠ next.osc_port then
          .osc_stop :: (if next.enable_osc then [.osc_start] else [])
        else []
      let bpf_acts : List SinkAction :=
        if prev.enable_bpf ≠ next.enable_bpf then
          .bpf_stop :: (if next.enable_bpf then [.bpf_start] else [])
        else if next.enable_bpf ∧
            (prev.bpf_enabled_mask ≠ next.bpf_enabled_mask ∨
              prev.bpf_sample_interval_ms ≠ next.bpf_sample_interval_ms ∨
              prev.bpf_tgid_allow ≠ next.bpf_tgid_allow ∨
              prev.bpf_tgid_deny ≠ next.bpf_tgid_deny ∨
              prev.bpf_cgroup_id ≠ next.bpf_cgroup_id) then [.bpf_apply_cfg]
        else []
      let fake_acts : List SinkAction :=
        if next.enable_fake ∧ bpf_ok = false then
          (if fake_running = false then [.fake_start] else [])
        else [.fake_stop_join]
      { state := { cfg := next, atomics := atomics,
                   actions := st.actions ++ audio_acts ++ midi_acts ++ osc_acts ++
                     bpf_acts ++ fake_acts },
        status := 200, error := none, restart_required := restart_required }

/-- Claim C9, counterexample: a well-formed object patch carrying the
bounds violation `music.bpm = 1000` (outside the spec range (1,400)) is
not rejected — it is accepted with 200, the value is clamped to 400, and
live state (the bpm atomic and the stored config) is mutated. -/
theorem api_put_config_accepts_bounds_violation :
    (api_put_config {} (Json.obj [("music", Json.obj [("bpm", Json.num 1000)])])
        true false).status = 200 ∧
    (api_put_config {} (Json.obj [("music", Json.obj [("bpm", Json.num 1000)])])
        true false).state.atomics.bpm = 400 ∧
    (api_put_config {} (Json.obj [("music", Json.obj [("bpm", Json.num 1000)])])
        true false).state.cfg.bpm = 400 ∧
    Atomics.bpm (AppState.atomics {}) = 110 := by
  refine ⟨?_, ?_, ?_, rfl⟩ <;> decide

/-- Claim C9, amended: the control surface rejects exactly the patches
that are not JSON objects — those get a 400 with an error message and no
live state (config, atomics, sink lifecycles) is touched; every object
patch is accepted with 200 (bounds violations are clamped into range and
unknown enum strings are stored as-is rather than rejected). -/
theorem api_put_config_object_gate (st : AppState) (patch : Json)
    (bpf_ok fake_running : Bool) :
    (patch.isObject = false →
      api_put_config st patch bpf_ok fake_running =
        { state := st, status := 400,
          error := some "config patch must be a JSON object" }) ∧
    (patch.isObject = true →
      (api_put_config st patch bpf_ok fake_running).status = 200) := by
  constructor
  · intro h
    simp [api_put_config, h]
  · intro h
    have hne : patch.isObject ≠ false := by
      rw [h]
      decide
    simp only [api_put_config, if_neg hne, config_from_json,
      if_neg (by rw [h]; decide : ¬(patch.isObject = false))]

theorem api_put_config_object_gate_witness :
    (Json.isObject (Json.num 5) = false ∧
      api_put_config {} (Json.num 5) true false =
        { state := {}, status := 400,
          error := some "config patch must be a JSON object" }) ∧
    (Json.isObject (Json.obj []) = true ∧
      (api_put_config {} (Json.obj []) true false).status = 200) :=
  ⟨⟨rfl, (api_put_config_object_gate {} (Json.num 5) true false).1 rfl⟩,
    ⟨rfl, (api_put_config_object_gate {} (Json.obj []) true false).2 rfl⟩⟩

end Khor
